import Mathlib

/-!
Verification of the auto-crud-api generation engine against its
natural-language specification.

The definitions below are shallow embeddings of the JavaScript source:
  * `src/src/service/getADocument.js`, `createDocument.js`,
    `updateADocument.js` (which also contains `getDocumentsList`),
    `deleteDocumentList.js`  — the route-handler operation semantics;
  * `src/src/service/createDummyDocuments.js` — the synthetic-record
    generator;
  * `src/src/utils/asyncHandler.js` — error translation;
  * `src/src/factories/zodSchemaFactory.js` — per-operation validators;
  * `src/src/factories/mongooseModelFactory.js` — the model registry;
  * `src/src/lib/schema.js` — id-shape validation.

JavaScript objects are modelled as association lists (key order is
significant, as it is for JS objects), mongoose documents as records with
an id, a field map and a creation timestamp, and the random draws of the
data generator as explicit stream parameters.
-/

namespace AutoCrud

/-- A scalar JSON-like value. -/
inductive Scalar where
  | str (s : String)
  | num (n : Int)
  | bool (b : Bool)
  | oid (s : String)
  | date (millis : Int)
  | null
  deriving Repr, DecidableEq

/-- A JSON-like value as it appears in request bodies, filter criteria and
pipeline stages: a scalar or a (flat) array of scalars — the only array
shape the engine ever inspects is "array of strings". -/
inductive Value where
  | scalar (x : Scalar)
  | arr (xs : List Scalar)
  deriving Repr, DecidableEq

/-- Shorthand for string values. -/
def Value.str (s : String) : Value := .scalar (.str s)

/-- Shorthand for number values. -/
def Value.num (n : Int) : Value := .scalar (.num n)

/-- Shorthand for object-id values. -/
def Value.oid (s : String) : Value := .scalar (.oid s)

/-- Shorthand for the null value. -/
def Value.null : Value := .scalar .null

/-- A JS object: an ordered association list of keys to values. -/
abbrev Obj := List (String × Value)

/-- JS truthiness of a value (`if (req.body[field])`-style tests):
the empty string, `0`, `false` and `null` are falsy. -/
def Value.truthy : Value → Bool
  | .scalar (.str s) => !(s == "")
  | .scalar (.num n) => !(n == 0)
  | .scalar (.bool b) => b
  | .scalar (.oid _) => true
  | .scalar (.date _) => true
  | .scalar .null => false
  | .arr _ => true

/-- JS `obj[k] = v` on an object: an existing key keeps its position and is
overwritten; a new key is appended at the end.  This is also the effect of
`{ ...obj, k: v }` and of one step of `Object.assign(obj, {k: v})`. -/
def setKey (m : Obj) (k : String) (v : Value) : Obj :=
  if m.any (fun p => p.1 == k) then
    m.map (fun p => if p.1 == k then (k, v) else p)
  else m ++ [(k, v)]

/-- Shallow merge of `upd` into `old` (`Object.assign(old, upd)` /
`{ ...old, ...upd }`): keys of `upd` win on collision, key order of `old`
is preserved, new keys are appended in order. -/
def mergeObj (old upd : Obj) : Obj :=
  upd.foldl (fun acc p => setKey acc p.1 p.2) old

/-- A response-pipeline stage: either a `$match` (filter-kind) stage
carrying a criteria object, or any other stage (`$project`, `$sort`, …). -/
inductive Stage where
  | matchStage (criteria : Obj)
  | otherStage (name : String) (payload : Value)
  deriving Repr, DecidableEq

/-- The `stage.$match` truthiness test used by
`pipeline.findIndex((stage) => stage.$match)`. -/
def Stage.isMatch : Stage → Bool
  | .matchStage _ => true
  | .otherStage _ _ => false

/-- Merge a criteria object into a stage when it is a `$match` stage. -/
def Stage.mergeCriteria : Stage → Obj → Stage
  | .matchStage m, crit => .matchStage (mergeObj m crit)
  | .otherStage n p, _ => .otherStage n p

/-!
Identity/filter injection, one definition per handler.  Each takes the
declared pipeline and the request criteria and returns a pair:
  * the pipeline the handler hands to `model.aggregate`,
  * what the declared (shared, route-level) pipeline contains **after**
    the call — JS aliasing made explicit.
-/

/-- Transcribes `getADocument.js` lines 22–35: `const pipeline = [...responsePipeline]`
copies the array but shares the stage objects, so
`pipeline[matchIndex].$match._id = docId` mutates the declared stage in
place; `pipeline.unshift(...)` only touches the copy. -/
def getADocumentInject (declared : List Stage) (docId : Value) :
    List Stage × List Stage :=
  match declared.findIdx? Stage.isMatch with
  | some i =>
      let mutated :=
        declared.set i
          ((declared.getD i (.matchStage [])).mergeCriteria [("_id", docId)])
      (mutated, mutated)
  | none =>
      (Stage.matchStage [("_id", docId)] :: declared, declared)

/-- Transcribes `updateADocument.js` lines 50–63: same aliasing; the assignment
`pipeline[matchIndex].$match = { ...pipeline[matchIndex].$match, _id }`
rebinds the `$match` property of the shared stage object. -/
def updateADocumentInject (declared : List Stage) (docId : Value) :
    List Stage × List Stage :=
  match declared.findIdx? Stage.isMatch with
  | some i =>
      let mutated :=
        declared.set i
          ((declared.getD i (.matchStage [])).mergeCriteria [("_id", docId)])
      (mutated, mutated)
  | none =>
      (Stage.matchStage [("_id", docId)] :: declared, declared)

/-- Transcribes `createDocument.js` lines 34–49: in the `$match` case the shared stage
is mutated; in the no-`$match` case the handler calls
`responsePipeline.unshift(...)`, prepending onto the declared array
itself (it then aggregates `responsePipeline`). -/
def createDocumentInject (declared : List Stage) (docId : Value) :
    List Stage × List Stage :=
  match declared.findIdx? Stage.isMatch with
  | some i =>
      let mutated :=
        declared.set i
          ((declared.getD i (.matchStage [])).mergeCriteria [("_id", docId)])
      (mutated, mutated)
  | none =>
      let mutated := Stage.matchStage [("_id", docId)] :: declared
      (mutated, mutated)

/-- Transcribes `updateADocument.js` (the `getDocumentsList` handler) lines 133–143:
`JSON.parse(JSON.stringify(responsePipeline))` deep-clones, then
`Object.assign` merges the filter into the first `$match` stage of the
clone, or a new `$match` stage is unshifted; the declared pipeline is
never touched. -/
def getDocumentsListInject (declared : List Stage) (filterQuery : Obj) :
    List Stage × List Stage :=
  match declared.findIdx? Stage.isMatch with
  | some i =>
      (declared.set i
         ((declared.getD i (.matchStage [])).mergeCriteria filterQuery),
       declared)
  | none =>
      (Stage.matchStage filterQuery :: declared, declared)

/-- Modelled from the spec, §4.4 ResponsePipelineEngine: "if a filter-kind
stage already exists, shallow-merge the criteria into it; otherwise
prepend a new filter stage carrying exactly the criteria" — with §3's
invariant that at most the first filter-kind stage is the injection
point.  Used only to compare the handlers' behaviour against the spec's
words. -/
def specMergeCriteria (declared : List Stage) (crit : Obj) : List Stage :=
  match declared.findIdx? Stage.isMatch with
  | some i =>
      declared.set i ((declared.getD i (.matchStage [])).mergeCriteria crit)
  | none => Stage.matchStage crit :: declared

/-- A stored document: its identifier, its field map, and its creation
timestamp (documents get `timestamps: true` in the model factory). -/
structure DocRec where
  id : String
  fields : Obj
  createdAt : Int
  deriving Repr, DecidableEq

/-- mongoose `Types.ObjectId.isValid` on a string (`lib/schema.js`):
a 24-character hexadecimal string, or any 12-character string. -/
def isValidObjectId (s : String) : Bool :=
  (s.length == 24 && s.data.all (fun c =>
      c.isDigit || ('a' ≤ c && c ≤ 'f') || ('A' ≤ c && c ≤ 'F')))
    || s.length == 12

/-- JS `s.split(',')`. -/
def jsSplitComma (s : String) : List String :=
  (s.data.splitOn ',').map String.mk

/-- From `lib/schema.js`, the `idsSchema`: the query's `ids` string is split on
commas, the resulting array must be non-empty and each element must be a
valid ObjectId. -/
def idsQueryValid (ids : String) : Bool :=
  let parts := jsSplitComma ids
  !parts.isEmpty && parts.all isValidObjectId

/-- Is `needle` a prefix of the second list? -/
def charsPrefixOf : List Char → List Char → Bool
  | [], _ => true
  | _ :: _, [] => false
  | a :: as, b :: bs => a == b && charsPrefixOf as bs

/-- Does the list contain `needle` as a contiguous sublist? -/
def charsSubOf (needle : List Char) : List Char → Bool
  | [] => needle.isEmpty
  | b :: bs => charsPrefixOf needle (b :: bs) || charsSubOf needle bs

/-- Does `hay` contain `needle` as a substring (JS `hay.includes(needle)`)? -/
def containsSubstr (hay needle : String) : Bool :=
  charsSubOf needle.data hay.data

/-- Outcome of the delete-many handler, with the store it leaves behind. -/
inductive DeleteListResult where
  | badRequest (msg : String)
  | notFound (msg : String)
  | ok (msg : String)
  deriving Repr, DecidableEq

/-- The 404 message of `deleteDocumentList.js` line 32. -/
def deleteListNotFoundMsg (name : String) : String :=
  "Not Found: Some " ++ name ++ " IDs do not exist. Deletion aborted."

/-- Transcribes `service/deleteDocumentList.js`: validate the `ids` query against
`idsSchema`; split on commas; fetch the documents whose `_id` is in the
list; if the count found differs from the raw list length, 404 and delete
nothing; otherwise delete every document whose `_id` is in the list. -/
def deleteDocumentList (store : List DocRec) (name ids : String) :
    List DocRec × DeleteListResult :=
  if !idsQueryValid ids then
    (store, .badRequest "Bad Request: ID must be a valid MongoDB ObjectId")
  else
    let docIds := jsSplitComma ids
    let existingDocs := store.filter (fun d => docIds.contains d.id)
    if existingDocs.length != docIds.length then
      (store, .notFound (deleteListNotFoundMsg name))
    else
      (store.filter (fun d => !docIds.contains d.id),
       .ok ("Success: " ++ name ++ " with IDs: "
            ++ String.intercalate ", " docIds ++ " deleted successfully."))

/-- If some requested id has no document in a store with distinct ids,
then fewer matching documents exist than requested ids. -/
theorem filter_contains_length_lt {store : List DocRec} {docIds : List String}
    (hnodup : (store.map DocRec.id).Nodup) {m : String} (hm : m ∈ docIds)
    (hmiss : ∀ d ∈ store, d.id ≠ m) :
    (store.filter (fun d => docIds.contains d.id)).length < docIds.length := by
  have hsub : List.Sublist
      ((store.filter (fun d => docIds.contains d.id)).map DocRec.id)
      (store.map DocRec.id) :=
    (List.filter_sublist store).map DocRec.id
  have hnodupF := hnodup.sublist hsub
  have hsubset : ((store.filter (fun d => docIds.contains d.id)).map DocRec.id)
      ⊆ docIds.erase m := by
    intro x hx
    obtain ⟨d, hd, rfl⟩ := List.mem_map.mp hx
    have hdstore : d ∈ store := List.mem_of_mem_filter hd
    have hdid : d.id ∈ docIds := by
      have := List.of_mem_filter hd
      simpa using this
    exact (List.mem_erase_of_ne (hmiss d hdstore)).mpr hdid
  have hlen := (hnodupF.subperm hsubset).length_le
  have hpos : 0 < docIds.length := List.length_pos_of_mem hm
  have herase := List.length_erase_of_mem hm
  simp only [List.length_map] at hlen
  omega

/-- If every requested id has a document, the ids are pairwise distinct,
and the store's ids are distinct, then exactly as many matching documents
exist as requested ids. -/
theorem filter_contains_length_eq {store : List DocRec} {docIds : List String}
    (hnodup : (store.map DocRec.id).Nodup) (hids : docIds.Nodup)
    (hall : ∀ m ∈ docIds, ∃ d ∈ store, d.id = m) :
    (store.filter (fun d => docIds.contains d.id)).length = docIds.length := by
  have hsub : List.Sublist
      ((store.filter (fun d => docIds.contains d.id)).map DocRec.id)
      (store.map DocRec.id) :=
    (List.filter_sublist store).map DocRec.id
  have hnodupF := hnodup.sublist hsub
  have hsubset : ((store.filter (fun d => docIds.contains d.id)).map DocRec.id)
      ⊆ docIds := by
    intro x hx
    obtain ⟨d, hd, rfl⟩ := List.mem_map.mp hx
    have := List.of_mem_filter hd
    simpa using this
  have hsupset : docIds
      ⊆ ((store.filter (fun d => docIds.contains d.id)).map DocRec.id) := by
    intro m hm
    obtain ⟨d, hd, rfl⟩ := hall m hm
    exact List.mem_map_of_mem _
      (List.mem_filter.mpr ⟨hd, by simpa using hm⟩)
  have hperm := (hnodupF.subperm hsubset).antisymm (hids.subperm hsupset)
  simpa using hperm.length_eq

/-- With duplicate-free store ids, a duplicated requested id forces fewer
matching documents than requested ids. -/
theorem filter_contains_length_lt_of_dup {store : List DocRec}
    {docIds : List String} (hnodup : (store.map DocRec.id).Nodup)
    (hdup : ¬ docIds.Nodup) :
    (store.filter (fun d => docIds.contains d.id)).length < docIds.length := by
  have hsub : List.Sublist
      ((store.filter (fun d => docIds.contains d.id)).map DocRec.id)
      (store.map DocRec.id) :=
    (List.filter_sublist store).map DocRec.id
  have hnodupF := hnodup.sublist hsub
  have hsubset : ((store.filter (fun d => docIds.contains d.id)).map DocRec.id)
      ⊆ docIds.dedup := by
    intro x hx
    obtain ⟨d, hd, rfl⟩ := List.mem_map.mp hx
    have := List.of_mem_filter hd
    exact List.mem_dedup.mpr (by simpa using this)
  have hlen := (hnodupF.subperm hsubset).length_le
  have hdl : docIds.dedup.length ≠ docIds.length := by
    intro he
    exact hdup ((List.dedup_sublist docIds).eq_of_length he ▸
      List.nodup_dedup docIds)
  have hdle := (List.dedup_sublist docIds).length_le
  simp only [List.length_map] at hlen
  omega

/-- C2 counterexample: `ids = [A,B,C]` with `C` missing does return 404 and
delete nothing, but the 404 message does **not** name the missing id `C`
(it is the fixed text "Some … IDs do not exist. Deletion aborted."). -/
theorem c2_missing_ids_not_named :
    deleteDocumentList
        [⟨"aaaaaaaaaaaa", [], 0⟩, ⟨"bbbbbbbbbbbb", [], 0⟩] "Book"
        "aaaaaaaaaaaa,bbbbbbbbbbbb,cccccccccccc"
      = ([⟨"aaaaaaaaaaaa", [], 0⟩, ⟨"bbbbbbbbbbbb", [], 0⟩],
         .notFound (deleteListNotFoundMsg "Book")) ∧
    containsSubstr (deleteListNotFoundMsg "Book") "cccccccccccc" = false := by
  decide

/-- C2 (amended): if some requested id has no record, the delete-many
handler deletes nothing and returns a 404 stating that some ids do not
exist (without naming them); if the requested ids are pairwise distinct
and every one has a record, it deletes exactly the listed records. -/
theorem c2_delete_many_atomicity (store : List DocRec) (name ids : String)
    (hnodup : (store.map DocRec.id).Nodup)
    (hval : idsQueryValid ids = true) :
    ((∃ m ∈ jsSplitComma ids, ∀ d ∈ store, d.id ≠ m) →
      deleteDocumentList store name ids
        = (store, .notFound (deleteListNotFoundMsg name))) ∧
    ((jsSplitComma ids).Nodup →
      (∀ m ∈ jsSplitComma ids, ∃ d ∈ store, d.id = m) →
      deleteDocumentList store name ids
        = (store.filter (fun d => !(jsSplitComma ids).contains d.id),
           .ok ("Success: " ++ name ++ " with IDs: "
                ++ String.intercalate ", " (jsSplitComma ids)
                ++ " deleted successfully."))) := by
  constructor
  · rintro ⟨m, hm, hmiss⟩
    have hlt := filter_contains_length_lt hnodup hm hmiss
    simp only [deleteDocumentList, hval, Bool.not_true, Bool.false_eq_true,
      if_false]
    rw [if_pos (by simpa [bne_iff_ne] using Nat.ne_of_lt hlt)]
  · intro hids hall
    have heq := filter_contains_length_eq hnodup hids hall
    simp only [deleteDocumentList, hval, Bool.not_true, Bool.false_eq_true,
      if_false]
    rw [heq, if_neg (by simp)]

/-- Witness for `c2_delete_many_atomicity`: a concrete store and id lists
exercising both the missing-id branch and the all-present branch. -/
theorem c2_delete_many_atomicity_witness :
    deleteDocumentList [⟨"aaaaaaaaaaaa", [], 0⟩] "Book"
        "aaaaaaaaaaaa,cccccccccccc"
      = ([⟨"aaaaaaaaaaaa", [], 0⟩],
         .notFound (deleteListNotFoundMsg "Book")) ∧
    deleteDocumentList [⟨"aaaaaaaaaaaa", [], 0⟩, ⟨"bbbbbbbbbbbb", [], 0⟩]
        "Book" "aaaaaaaaaaaa,bbbbbbbbbbbb"
      = ([], .ok ("Success: Book with IDs: aaaaaaaaaaaa, bbbbbbbbbbbb"
                  ++ " deleted successfully.")) := by
  constructor
  · exact (c2_delete_many_atomicity [⟨"aaaaaaaaaaaa", [], 0⟩] "Book"
      "aaaaaaaaaaaa,cccccccccccc" (by decide) (by decide)).1
      ⟨"cccccccccccc", by decide, by decide⟩
  · have h := (c2_delete_many_atomicity
      [⟨"aaaaaaaaaaaa", [], 0⟩, ⟨"bbbbbbbbbbbb", [], 0⟩] "Book"
      "aaaaaaaaaaaa,bbbbbbbbbbbb" (by decide) (by decide)).2
      (by decide) (by decide)
    rw [h]
    decide

/-- C10: delete-many compares the count of distinct matching records with
the raw length of the comma-split id list, so a request whose id list
repeats an id returns 404 and deletes nothing even when every listed id
has an existing record. -/
theorem c10_duplicate_ids_rejected (store : List DocRec) (name ids : String)
    (hnodup : (store.map DocRec.id).Nodup)
    (hval : idsQueryValid ids = true)
    (hdup : ¬ (jsSplitComma ids).Nodup)
    (hexists : ∀ m ∈ jsSplitComma ids, ∃ d ∈ store, d.id = m) :
    deleteDocumentList store name ids
      = (store, .notFound (deleteListNotFoundMsg name)) := by
  have hlt := filter_contains_length_lt_of_dup hnodup hdup
  simp only [deleteDocumentList, hval, Bool.not_true, Bool.false_eq_true,
    if_false]
  rw [if_pos (by simpa [bne_iff_ne] using Nat.ne_of_lt hlt)]

/-- Witness for `c10_duplicate_ids_rejected`: `ids=A,A` where `A` exists. -/
theorem c10_duplicate_ids_rejected_witness :
    deleteDocumentList [⟨"aaaaaaaaaaaa", [], 0⟩] "Book"
        "aaaaaaaaaaaa,aaaaaaaaaaaa"
      = ([⟨"aaaaaaaaaaaa", [], 0⟩],
         .notFound (deleteListNotFoundMsg "Book")) :=
  c10_duplicate_ids_rejected [⟨"aaaaaaaaaaaa", [], 0⟩] "Book"
    "aaaaaaaaaaaa,aaaaaaaaaaaa" (by decide) (by decide) (by decide)
    (by decide)

/-- JS template-literal rendering of a scalar. -/
def Scalar.display : Scalar → String
  | .str s => s
  | .num n => toString n
  | .bool b => if b then "true" else "false"
  | .oid s => s
  | .date m => toString m
  | .null => "null"

/-- JS template-literal rendering of a value (arrays join on commas). -/
def Value.display : Value → String
  | .scalar x => x.display
  | .arr xs => String.intercalate "," (xs.map Scalar.display)

/-- Field access on a stored document (`doc[f]`). -/
def DocRec.get (d : DocRec) (f : String) : Option Value :=
  d.fields.lookup f

/-- Models `model.findOne({ [field]: value })`: the first document whose field
holds the value. -/
def findOneByField (store : List DocRec) (f : String) (v : Value) :
    Option DocRec :=
  store.find? (fun d => d.get f == some v)

/-- Outcome of the update handler's existence and uniqueness checks. -/
inductive UpdateCheckResult where
  | notFound (msg : String)
  | conflict (field msg : String)
  | ok
  deriving Repr, DecidableEq

/-- Transcribes `service/updateADocument.js` lines 22–44: confirm the target exists,
then for each unique field with a truthy submitted value run
`findOne({ [field]: value })` and fail on
`conflictingDoc || (conflictingDoc?.length && conflictingDoc._id.toString() !== docId)`.
A mongoose document has no `length` property, so the second disjunct is
always falsy and the condition is truthy exactly when `findOne` returned
*any* document — the "exclude the current record's own id" comparison is
dead code. -/
def updateADocumentCheck (store : List DocRec) (docId : String)
    (uniqueFields : List String) (body : Obj) (name : String) :
    UpdateCheckResult :=
  if (store.find? (fun d => d.id == docId)).isNone then
    .notFound ("Not Found: " ++ name ++ " with ID \"" ++ docId
               ++ "\" does not exist.")
  else
    match uniqueFields.find? (fun f =>
        ((body.lookup f).getD .null).truthy
        && (findOneByField store f ((body.lookup f).getD .null)).isSome) with
    | some f =>
        .conflict f ("Conflict: " ++ name ++ " with " ++ f ++ " \""
                     ++ ((body.lookup f).getD .null).display
                     ++ "\" already exists.")
    | none => .ok

/-- C3: updating a document that is itself the only holder of the
submitted unique value is rejected with a conflict — the code's
`conflictingDoc || …` short-circuits before the own-id exclusion, so the
pre-check finds the target document itself and 409s where the spec says
the update must succeed.  (The parallel implementation in
`routes/CrudFactory.js` line 149 uses
`existingDoc && existingDoc._id.toString() !== docId`, the intended
check.) -/
theorem c3_update_conflicts_with_itself :
    updateADocumentCheck
        [⟨"aaaaaaaaaaaa", [("email", Value.str "a@b.c")], 0⟩]
        "aaaaaaaaaaaa" ["email"] [("email", Value.str "a@b.c")] "User"
      = .conflict "email"
          "Conflict: User with email \"a@b.c\" already exists." := by
  decide

/-- The `while (text.length < minLength) text += \x60 ${sentence}\x60` loop of
`createDummyDocuments.js`, with explicit fuel; every round appends at
least one character (the space), so `minLength + 1` rounds always reach
the loop's exit condition. -/
def growText (sentences : Nat → List Char) (minLength : Nat) :
    Nat → Nat → List Char → List Char
  | 0, _, text => text
  | fuel + 1, i, text =>
      if text.length < minLength then
        growText sentences minLength fuel (i + 1) (text ++ ' ' :: sentences i)
      else text

/-- JS `text.lastIndexOf(' ')`: the position of the last space, if any. -/
def lastSpacePos (t : List Char) : Option Nat :=
  ((List.range t.length).filter (fun i => t.getD i 'x' == ' ')).getLast?

/-- Transcribes `createDummyDocuments.js` lines 65–71 (and 91–97): if the text exceeds
`maxLength`, truncate to `maxLength` and cut back to the last space when
it sits at a positive index. -/
def truncateAtWordBoundary (maxLength : Nat) (text : List Char) : List Char :=
  if maxLength < text.length then
    let t := text.take maxLength
    match lastSpacePos t with
    | some k => if 0 < k then t.take k else t
    | none => t
  else text

/-- The letters-and-spaces heuristic branch of `generateFieldValue`
(`createDummyDocuments.js` lines 49–72): build lorem text up to
`minLength`, truncate at a word boundary past `maxLength`, then return
`text.substring(0, maxLength / 3)` (JS truncates the fractional index). -/
def genLettersSpaceText (minLength maxLength : Nat)
    (sentences : Nat → List Char) : List Char :=
  let grown := growText sentences minLength (minLength + 1) 1 (sentences 0)
  let trimmed := truncateAtWordBoundary maxLength grown
  trimmed.take (maxLength / 3)

/-- The no-pattern branch of `generateFieldValue` (lines 77–98): the same
construction without the final `substring`. -/
def genLoremText (minLength maxLength : Nat)
    (sentences : Nat → List Char) : List Char :=
  truncateAtWordBoundary maxLength
    (growText sentences minLength (minLength + 1) 1 (sentences 0))

/-- The `generateFieldValue` branch for a string field with a `match` rule
(`createDummyDocuments.js` lines 24–76): substring sniffing on the
serialized regex chooses a heuristic; the faker draws are explicit
parameters. -/
def generateStringWithPattern (regexStr : String)
    (minlength maxlength : Option Nat)
    (emailDraw slugDraw randExpDraw : List Char)
    (numericDraw : Nat → List Char)
    (sentences : Nat → List Char) : List Char :=
  if containsSubstr regexStr "@" then emailDraw
  else if containsSubstr regexStr "https?:\\" then
    let url := "https://example.com/".data ++ slugDraw
    if 100 < url.length then url.take 100 else url
  else if containsSubstr regexStr "^\\d" || containsSubstr regexStr "\\d+" then
    numericDraw (minlength.getD 5)
  else if containsSubstr regexStr "[A-Za-z" && containsSubstr regexStr "\\s"
  then
    genLettersSpaceText (minlength.getD 5) (maxlength.getD 20) sentences
  else randExpDraw

/-- C4: for a string field whose pattern is `/^[A-Za-z\s]+$/` with
`minlength 10` and `maxlength 20`, the generator's letters-and-spaces
branch returns `text.substring(0, maxLength / 3)` — at most 6 characters,
below the declared minimum length of 10, for **every** random draw. -/
theorem c4_generated_text_below_minlength (sentences : Nat → List Char)
    (emailDraw slugDraw randExpDraw : List Char)
    (numericDraw : Nat → List Char) :
    (generateStringWithPattern "/^[A-Za-z\\s]+$/" (some 10) (some 20)
        emailDraw slugDraw randExpDraw numericDraw sentences).length < 10 := by
  have hbranch : generateStringWithPattern "/^[A-Za-z\\s]+$/" (some 10)
      (some 20) emailDraw slugDraw randExpDraw numericDraw sentences
      = genLettersSpaceText 10 20 sentences := by
    simp only [generateStringWithPattern,
      show containsSubstr "/^[A-Za-z\\s]+$/" "@" = false from by decide,
      show containsSubstr "/^[A-Za-z\\s]+$/" "https?:\\" = false from by
        decide,
      show containsSubstr "/^[A-Za-z\\s]+$/" "^\\d" = false from by decide,
      show containsSubstr "/^[A-Za-z\\s]+$/" "\\d+" = false from by decide,
      show containsSubstr "/^[A-Za-z\\s]+$/" "[A-Za-z" = true from by decide,
      show containsSubstr "/^[A-Za-z\\s]+$/" "\\s" = true from by decide]
    rfl
  rw [hbranch]
  have h := List.length_take (20 / 3)
    (truncateAtWordBoundary 20 (growText sentences 10 (10 + 1) 1
      (sentences 0)))
  simp only [genLettersSpaceText]
  omega

/-- An error thrown inside a wrapped handler, as `asyncHandler.js`
distinguishes them in its catch cascade. -/
inductive JsError where
  | zodError (issues : List (String × String))
  | mongooseValidation (issues : List (String × String))
  | mongoServerError (code : Nat) (keyPatternFields : List String)
      (keyValue : Obj) (msg : String)
  | castError (path value : String)
  | appError (statusCode : Nat) (msg : String)
  | generic (msg : String)

/-- Status and message of an error response. -/
structure ErrorResponse where
  status : Nat
  message : String
  deriving Repr, DecidableEq

/-- The catch cascade of `asyncHandler.js` lines 33–89, reduced to the
status/message pair it sends: Zod errors → 400, mongoose validation → 400,
`error.code === 11000` (MongoDB duplicate key) → 409 naming
`Object.keys(error.keyPattern)[0]`, cast errors → 400, `AppError` → its
own status, anything else → 500. -/
def asyncHandlerCatch : JsError → ErrorResponse
  | .zodError _ =>
      ⟨400, "Invalid input data. Please ensure the provided data follows"
            ++ " the correct format."⟩
  | .mongooseValidation _ =>
      ⟨400, "Database validation failed. Please check the submitted values."⟩
  | .mongoServerError code fields _ msg =>
      if code == 11000 then
        ⟨409, "Duplicate value error: " ++ fields.headD "" ++ " already exists"⟩
      else ⟨500, msg⟩
  | .castError path value =>
      ⟨400, "Invalid value for the field \"" ++ path
            ++ "\". Expected a valid MongoDB ObjectId but received: \""
            ++ value ++ "\"."⟩
  | .appError sc msg => ⟨sc, "Application Error: " ++ msg⟩
  | .generic msg => ⟨500, msg⟩

/-- The conflict response of the create handler's uniqueness pre-check
(`createDocument.js` lines 24–27). -/
def createPrecheckConflict (name field : String) (v : Value) : ErrorResponse :=
  ⟨409, "Conflict: " ++ name ++ " with " ++ field ++ " \"" ++ v.display
        ++ "\" already exists."⟩

/-- A list is a prefix of itself followed by anything. -/
theorem charsPrefixOf_append (f t : List Char) :
    charsPrefixOf f (f ++ t) = true := by
  induction f with
  | nil => rfl
  | cons a as ih => simp [charsPrefixOf, ih]

/-- A contiguous sublist is found wherever it sits. -/
theorem charsSubOf_append (p f t : List Char) :
    charsSubOf f (p ++ (f ++ t)) = true := by
  induction p with
  | nil =>
      cases f with
      | nil => cases t <;> simp [charsSubOf, charsPrefixOf, List.isEmpty]
      | cons a as =>
          simpa [charsSubOf] using Or.inl (charsPrefixOf_append (a :: as) t)
  | cons b bs ih => simp [charsSubOf, ih]

/-- The inclusion `(a ++ f ++ b).includes(f)` always holds. -/
theorem containsSubstr_append_middle (a f b : String) :
    containsSubstr (a ++ f ++ b) f = true := by
  unfold containsSubstr
  rw [String.data_append, String.data_append, List.append_assoc]
  exact charsSubOf_append a.data f.data b.data

/-- C6: a storage-level duplicate-key rejection (`error.code === 11000`)
is translated by the handler wrapper into a 409 response — the same
conflict status the uniqueness pre-check produces — whose message names
the colliding field; it is not an internal (500) error. -/
theorem c6_duplicate_key_is_conflict (field name msg : String) (kv : Obj)
    (v : Value) :
    (asyncHandlerCatch (.mongoServerError 11000 [field] kv msg)).status = 409 ∧
    (asyncHandlerCatch (.mongoServerError 11000 [field] kv msg)).status
      = (createPrecheckConflict name field v).status ∧
    (asyncHandlerCatch (.mongoServerError 11000 [field] kv msg)).status ≠ 500 ∧
    containsSubstr
      (asyncHandlerCatch (.mongoServerError 11000 [field] kv msg)).message
      field = true := by
  refine ⟨rfl, rfl, (by decide : (409 : Nat) ≠ 500), ?_⟩
  exact containsSubstr_append_middle "Duplicate value error: " field
    " already exists"

/-- A field's declared kind, mirroring the `typeMap` dispatch of
`zodSchemaFactory.js` (plus the `Array.isArray(value.type)` override and
the `z.any()` fallback for unknown kinds). -/
inductive FieldType where
  | string
  | number
  | boolean
  | date
  | objectId
  | arrayOfString
  | other
  deriving Repr, DecidableEq

/-- One field of a schema definition.  The `match` regex is embedded by
its denotation (a predicate on strings); `required`, `minlength`,
`maxlength`, `min`, `max` mirror the mongoose-style option tuples whose
first component the factory reads. -/
structure FieldSpec where
  type : FieldType
  required : Bool := false
  matchPred : Option (String → Bool) := none
  minlength : Option Nat := none
  maxlength : Option Nat := none
  minValue : Option Int := none
  maxValue : Option Int := none

/-- The base validator `typeMap[value.type] || z.any()`. -/
def zodBaseCheck (t : FieldType) (v : Value) : Bool :=
  match t, v with
  | .string, .scalar (.str _) => true
  | .string, _ => false
  | .number, .scalar (.num _) => true
  | .number, _ => false
  | .boolean, .scalar (.bool _) => true
  | .boolean, _ => false
  | .date, .scalar (.date _) => true
  | .date, _ => false
  | .objectId, .scalar (.str s) => isValidObjectId s
  | .objectId, _ => false
  | .arrayOfString, _ => true
  | .other, _ => true

/-- The full per-field validator built by `zodSchemaFactory.js` lines
20–59: base type check, then `.regex`, `.min`/`.max` (string length and
numeric bounds) as declared; an array-typed field overrides all of it
with "non-empty array of strings". -/
def zodFieldCheck (spec : FieldSpec) (v : Value) : Bool :=
  if spec.type == .arrayOfString then
    match v with
    | .arr xs =>
        !xs.isEmpty && xs.all (fun x =>
          match x with | .str _ => true | _ => false)
    | _ => false
  else
    zodBaseCheck spec.type v
    && (match spec.matchPred, v with
        | some p, .scalar (.str s) => p s
        | _, _ => true)
    && (match spec.minlength, v with
        | some m, .scalar (.str s) => decide (m ≤ s.length)
        | _, _ => true)
    && (match spec.maxlength, v with
        | some m, .scalar (.str s) => decide (s.length ≤ m)
        | _, _ => true)
    && (match spec.minValue, v with
        | some m, .scalar (.num n) => decide (m ≤ n)
        | _, _ => true)
    && (match spec.maxValue, v with
        | some m, .scalar (.num n) => decide (n ≤ m)
        | _, _ => true)

/-- One key of a generated zod object schema: whether it is optional, and
its value check. -/
structure ZodField where
  isOpt : Bool
  check : Value → Bool

/-- Builds `createSchema[key] = value.required?.[0] ? schema : schema.optional()`
(`zodSchemaFactory.js` lines 62–64). -/
def createSchemaOf (d : List (String × FieldSpec)) : List (String × ZodField) :=
  d.map (fun p => (p.1, ⟨!p.2.required, zodFieldCheck p.2⟩))

/-- Builds `updateSchema[key] = schema.optional()` (line 65): every field
optional. -/
def updateSchemaOf (d : List (String × FieldSpec)) : List (String × ZodField) :=
  d.map (fun p => (p.1, ⟨true, zodFieldCheck p.2⟩))

/-- Parsing a request against `z.object(fields).strict()`: every request
key must be declared and pass its check (strict rejects unknown keys);
every non-optional declared key must be present. -/
def parseStrictObject (fields : List (String × ZodField)) (req : Obj) : Bool :=
  req.all (fun p =>
    match fields.lookup p.1 with
    | some n => n.check p.2
    | none => false)
  && fields.all (fun q => q.2.isOpt || (req.lookup q.1).isSome)

/-- Looking a key up in the generated create schema. -/
theorem lookup_createSchemaOf (d : List (String × FieldSpec)) (k : String) :
    (createSchemaOf d).lookup k
      = (d.lookup k).map
          (fun s => (⟨!s.required, zodFieldCheck s⟩ : ZodField)) := by
  induction d with
  | nil => rfl
  | cons h t ih =>
      by_cases hk : (k == h.1) = true
      · simp [createSchemaOf, List.lookup, hk]
      · simp only [createSchemaOf, List.map, List.lookup, hk,
          cond_false] at ih ⊢
        exact ih

/-- Looking a key up in the generated update schema. -/
theorem lookup_updateSchemaOf (d : List (String × FieldSpec)) (k : String) :
    (updateSchemaOf d).lookup k
      = (d.lookup k).map
          (fun s => (⟨true, zodFieldCheck s⟩ : ZodField)) := by
  induction d with
  | nil => rfl
  | cons h t ih =>
      by_cases hk : (k == h.1) = true
      · simp [updateSchemaOf, List.lookup, hk]
      · simp only [updateSchemaOf, List.map, List.lookup, hk,
          cond_false] at ih ⊢
        exact ih

/-- A successful lookup produces a member of the list. -/
theorem mem_of_lookup_eq_some {β : Type} {l : List (String × β)} {k : String}
    {v : β} (h : l.lookup k = some v) : (k, v) ∈ l := by
  induction l with
  | nil => simp [List.lookup] at h
  | cons hd t ih =>
      by_cases hk : (k == hd.1) = true
      · have hkey : k = hd.1 := eq_of_beq hk
        simp only [List.lookup, hk, cond_true] at h
        cases h
        rw [hkey]
        simp only [Prod.mk.eta]
        exact List.mem_cons_self hd t
      · simp only [List.lookup, hk, cond_false] at h
        exact List.mem_cons_of_mem _ (ih h)

/-- C7: if some field is declared `required` and is absent from a request
whose present fields are all declared and valid, the generated create
validator rejects the request while the generated update validator
accepts it (every field is optional in the update schema). -/
theorem c7_create_rejects_update_accepts
    (d : List (String × FieldSpec)) (req : Obj) (f : String) (spec : FieldSpec)
    (hf : d.lookup f = some spec)
    (hreq : spec.required = true)
    (habsent : req.lookup f = none)
    (hvalid : req.all (fun p =>
        match d.lookup p.1 with
        | some s => zodFieldCheck s p.2
        | none => false) = true) :
    parseStrictObject (createSchemaOf d) req = false ∧
    parseStrictObject (updateSchemaOf d) req = true := by
  constructor
  · have hmem : (f, (⟨!spec.required, zodFieldCheck spec⟩ : ZodField))
        ∈ createSchemaOf d := by
      apply mem_of_lookup_eq_some
      rw [lookup_createSchemaOf, hf]
      rfl
    have hB : (createSchemaOf d).all
        (fun q => q.2.isOpt || (req.lookup q.1).isSome) = false := by
      rw [Bool.eq_false_iff]
      intro hall
      rw [List.all_eq_true] at hall
      have := hall _ hmem
      rw [hreq, habsent] at this
      simp at this
    simp [parseStrictObject, hB]
  · unfold parseStrictObject
    rw [Bool.and_eq_true]
    constructor
    · rw [List.all_eq_true] at hvalid ⊢
      intro p hp
      have hv := hvalid p hp
      rw [lookup_updateSchemaOf]
      cases hdl : d.lookup p.1 with
      | none => rw [hdl] at hv; simp at hv
      | some s => rw [hdl] at hv; simpa using hv
    · rw [List.all_eq_true]
      intro q hq
      obtain ⟨p, _, rfl⟩ := List.mem_map.mp hq
      simp

/-- Witness for `c7_create_rejects_update_accepts`: a schema with a
required `email` and optional `age`, and a request carrying only a valid
`age`. -/
theorem c7_create_rejects_update_accepts_witness :
    parseStrictObject
        (createSchemaOf [("email", ⟨.string, true, none, none, none, none,
            none⟩), ("age", ⟨.number, false, none, none, none, none, none⟩)])
        [("age", Value.num 3)] = false ∧
    parseStrictObject
        (updateSchemaOf [("email", ⟨.string, true, none, none, none, none,
            none⟩), ("age", ⟨.number, false, none, none, none, none, none⟩)])
        [("age", Value.num 3)] = true :=
  c7_create_rejects_update_accepts
    [("email", ⟨.string, true, none, none, none, none, none⟩),
     ("age", ⟨.number, false, none, none, none, none, none⟩)]
    [("age", Value.num 3)] "email"
    ⟨.string, true, none, none, none, none, none⟩ rfl rfl rfl rfl

/-- Reading a document's key as the storage layer matches it: `_id` is
the identifier, `createdAt` the automatic timestamp, anything else the
field map. -/
def docGet (d : DocRec) (k : String) : Option Value :=
  if k == "_id" then some (Value.oid d.id)
  else if k == "createdAt" then some (Value.num d.createdAt)
  else d.fields.lookup k

/-- A document satisfies a `$match` criteria object: every criteria entry
equals the corresponding document key. -/
def matchesCriteria (d : DocRec) (crit : Obj) : Bool :=
  crit.all (fun p => docGet d p.1 == some p.2)

/-- Execute the filter-kind stages of a pipeline over the store in order
(the pagination claims only exercise `$match` stages ahead of the
appended `$sort`/`$skip`/`$limit`, which are modelled explicitly below;
other declared stage kinds pass the documents through). -/
def execMatchStages (store : List DocRec) (ps : List Stage) : List DocRec :=
  ps.foldl (fun docs st =>
    match st with
    | .matchStage crit => docs.filter (fun d => matchesCriteria d crit)
    | .otherStage _ _ => docs) store

/-- Insert into a list kept in descending `createdAt` order. -/
def insertByCreatedAtDesc (d : DocRec) : List DocRec → List DocRec
  | [] => [d]
  | x :: xs =>
      if x.createdAt < d.createdAt then d :: x :: xs
      else x :: insertByCreatedAtDesc d xs

/-- The default `-createdAt` sort: descending creation time. -/
def sortByCreatedAtDesc (docs : List DocRec) : List DocRec :=
  docs.foldr insertByCreatedAtDesc []

/-- The pagination object of the list response:
`{ total, totalPages, currentPage }`. -/
structure Pagination where
  total : Nat
  totalPages : Nat
  currentPage : Nat
  deriving Repr, DecidableEq

/-- Outcome of the list handler. -/
inductive ListResult where
  | notFound (msg : String)
  | ok (docs : List DocRec) (pagination : Pagination)
  deriving Repr, DecidableEq

/-- The pipeline branch of the list handler (`updateADocument.js`, the
`getDocumentsList` function, lines 133–206): deep-clone the declared
pipeline and merge the filter (the injection above), append `$sort`,
`$skip ((page-1)*limit)` and `$limit limit`, run the shaped pipeline for
the page, and run the same stages with `$count` appended for the total
(`const totalCountPipeline = [...pipeline, { $count: 'totalCount' }]`);
404 on an empty page, otherwise respond with
`{ total: totalCount, totalPages: ceil(totalCount/limit), currentPage: page }`. -/
def getDocumentsListPipelineBranch (store : List DocRec)
    (declared : List Stage) (filterQuery : Obj) (page limit : Nat)
    (name : String) : ListResult :=
  let parsedPage := max 1 page
  let parsedLimit := max 1 limit
  let injected := (getDocumentsListInject declared filterQuery).1
  let paged := ((sortByCreatedAtDesc (execMatchStages store injected)).drop
      ((parsedPage - 1) * parsedLimit)).take parsedLimit
  let totalCount := (((sortByCreatedAtDesc (execMatchStages store
      injected)).drop ((parsedPage - 1) * parsedLimit)).take
      parsedLimit).length
  if paged.isEmpty then
    .notFound ("Not Found: No " ++ name ++ "s exist with the given filters.")
  else
    .ok paged ⟨totalCount, (totalCount + parsedLimit - 1) / parsedLimit, page⟩

/-- The non-pipeline branch of the list handler (lines 171–181, 196–206):
a filtered, sorted, skipped and limited find, plus an independent
`countDocuments(filterQuery)` for the total. -/
def getDocumentsListFindBranch (store : List DocRec) (filterQuery : Obj)
    (page limit : Nat) (name : String) : ListResult :=
  let parsedPage := max 1 page
  let parsedLimit := max 1 limit
  let filtered := store.filter (fun d => matchesCriteria d filterQuery)
  let paged := ((sortByCreatedAtDesc filtered).drop
      ((parsedPage - 1) * parsedLimit)).take parsedLimit
  let totalCount := filtered.length
  if paged.isEmpty then
    .notFound ("Not Found: No " ++ name ++ "s exist with the given filters.")
  else
    .ok paged ⟨totalCount, (totalCount + parsedLimit - 1) / parsedLimit, page⟩

/-- Twelve stored documents with distinct creation times, all matching an
empty filter. -/
def exStore12 : List DocRec :=
  [⟨"d00", [], 0⟩, ⟨"d01", [], 1⟩, ⟨"d02", [], 2⟩, ⟨"d03", [], 3⟩,
   ⟨"d04", [], 4⟩, ⟨"d05", [], 5⟩, ⟨"d06", [], 6⟩, ⟨"d07", [], 7⟩,
   ⟨"d08", [], 8⟩, ⟨"d09", [], 9⟩, ⟨"d10", [], 10⟩, ⟨"d11", [], 11⟩]

/-- C8: on a route with a declared pipeline, 12 matching records and
`page=1&limit=5`, the count pipeline inherits the `$skip`/`$limit`
stages, so the response carries `total = 5` (the page size) and
`totalPages = 1` — while the true matching count is 12 and the handler's
own non-pipeline branch returns `total = 12`, `totalPages = 3` for the
same request, as the spec requires. -/
theorem c8_pipeline_count_truncated_by_page :
    getDocumentsListPipelineBranch exStore12 [Stage.matchStage []] [] 1 5
        "Book"
      = .ok [⟨"d11", [], 11⟩, ⟨"d10", [], 10⟩, ⟨"d09", [], 9⟩,
             ⟨"d08", [], 8⟩, ⟨"d07", [], 7⟩] ⟨5, 1, 1⟩ ∧
    (exStore12.filter (fun d => matchesCriteria d [])).length = 12 ∧
    getDocumentsListFindBranch exStore12 [] 1 5 "Book"
      = .ok [⟨"d11", [], 11⟩, ⟨"d10", [], 10⟩, ⟨"d09", [], 9⟩,
             ⟨"d08", [], 8⟩, ⟨"d07", [], 7⟩] ⟨12, 3, 1⟩ := by
  refine ⟨?_, by decide, ?_⟩ <;> decide

/-- A registered storage model: its name, its schema definition, and the
schema options the factory sets. -/
structure MongooseModel where
  name : String
  definition : List (String × FieldSpec)
  timestamps : Bool
  versionKey : Bool

/-- Models `new Schema(schemaDefinition, { timestamps: true, versionKey: false })`
followed by `model(modelName, schema)`. -/
def buildModel (name : String) (d : List (String × FieldSpec)) :
    MongooseModel :=
  ⟨name, d, true, false⟩

/-- Transcribes `mongooseModelFactory.js`:
`return mongoose.models[modelName] || model(modelName, schema)`, with the
ambient `mongoose.models` registry made an explicit argument and result:
if the name is registered, return the registry unchanged with the
registered model; otherwise register and return a fresh model. -/
def mongooseModelFactory (models : List (String × MongooseModel))
    (name : String) (d : List (String × FieldSpec)) :
    List (String × MongooseModel) × MongooseModel :=
  match models.lookup name with
  | some m => (models, m)
  | none => (models ++ [(name, buildModel name d)], buildModel name d)

/-- Appending does not disturb a key that fails to resolve on the left. -/
theorem lookup_append_of_lookup_eq_none {β : Type} {l₁ : List (String × β)}
    (l₂ : List (String × β)) {k : String} (h : l₁.lookup k = none) :
    (l₁ ++ l₂).lookup k = l₂.lookup k := by
  induction l₁ with
  | nil => rfl
  | cons hd t ih =>
      by_cases hk : (k == hd.1) = true
      · simp [List.lookup, hk] at h
      · simp only [List.lookup, hk, cond_false, List.cons_append] at h ⊢
        exact ih h

/-- C9: the model factory is idempotent per entity name — invoking it a
second time with the same name returns the registry unchanged and exactly
the model produced by the first invocation, whatever schema definition
the second call passes. -/
theorem c9_model_factory_idempotent (models : List (String × MongooseModel))
    (name : String) (d1 d2 : List (String × FieldSpec)) :
    mongooseModelFactory (mongooseModelFactory models name d1).1 name d2
      = ((mongooseModelFactory models name d1).1,
         (mongooseModelFactory models name d1).2) := by
  cases h : models.lookup name with
  | some m => simp [mongooseModelFactory, h]
  | none =>
      have h2 : (models ++ [(name, buildModel name d1)]).lookup name
          = some (buildModel name d1) := by
        rw [lookup_append_of_lookup_eq_none _ h]
        simp [List.lookup]
      simp [mongooseModelFactory, h, h2]

/-- C1 counterexample: with a declared pipeline containing a `$match`
stage, the get-by-id handler's injection leaves the declared pipeline
*changed*: the shared stage object has been mutated in place
(`pipeline[matchIndex].$match._id = docId` acts on the stage shared with
the declared array, which `[...responsePipeline]` copied only shallowly). -/
theorem c1_declared_match_stage_mutated :
    (getADocumentInject [Stage.matchStage [("status", Value.str "active")]]
        (Value.oid "67a000000000000000000001")).2
      ≠ [Stage.matchStage [("status", Value.str "active")]] := by
  decide

/-- C1 (amended): the list handler deep-clones, so its injection leaves the
declared pipeline unchanged for every pipeline and criteria; when the
declared pipeline contains no filter-kind (`$match`) stage, the get-by-id
and update injections also leave it unchanged (they prepend onto a copy),
while the create handler prepends the new filter stage onto the declared
sequence itself.  (When a `$match` stage exists, create/get/update mutate
the shared stage in place — `c1_declared_match_stage_mutated`.) -/
theorem c1_injection_preservation (declared : List Stage) (docId : Value)
    (h : declared.findIdx? Stage.isMatch = none) :
    (∀ (d : List Stage) (c : Obj), (getDocumentsListInject d c).2 = d) ∧
    (getADocumentInject declared docId).2 = declared ∧
    (updateADocumentInject declared docId).2 = declared ∧
    (createDocumentInject declared docId).2 =
      Stage.matchStage [("_id", docId)] :: declared := by
  refine ⟨fun d c => ?_, ?_, ?_, ?_⟩
  · unfold getDocumentsListInject
    cases d.findIdx? Stage.isMatch <;> rfl
  · simp [getADocumentInject, h]
  · simp [updateADocumentInject, h]
  · simp [createDocumentInject, h]

/-- Witness for `c1_injection_preservation` at a concrete pipeline with no
filter-kind stage (and a concrete pipeline/criteria for the list part). -/
theorem c1_injection_preservation_witness :
    (getDocumentsListInject [Stage.matchStage [("a", Value.num 1)]]
        [("b", Value.num 2)]).2 = [Stage.matchStage [("a", Value.num 1)]] ∧
    (getADocumentInject [Stage.otherStage "$project" Value.null]
        (Value.oid "67a000000000000000000001")).2
      = [Stage.otherStage "$project" Value.null] ∧
    (createDocumentInject [Stage.otherStage "$project" Value.null]
        (Value.oid "67a000000000000000000001")).2
      = Stage.matchStage [("_id", Value.oid "67a000000000000000000001")]
          :: [Stage.otherStage "$project" Value.null] :=
  ⟨(c1_injection_preservation [Stage.otherStage "$project" Value.null]
      (Value.oid "67a000000000000000000001") (by decide)).1
      [Stage.matchStage [("a", Value.num 1)]] [("b", Value.num 2)],
   (c1_injection_preservation [Stage.otherStage "$project" Value.null]
      (Value.oid "67a000000000000000000001") (by decide)).2.1,
   (c1_injection_preservation [Stage.otherStage "$project" Value.null]
      (Value.oid "67a000000000000000000001") (by decide)).2.2.2⟩

/-- C5: the pipeline each handler actually executes equals the merge the
spec describes — criteria shallow-merged (criteria keys win) into the
first filter-kind stage when one exists, otherwise a new filter stage
carrying exactly the criteria prepended at the front; and stages after
the first filter-kind stage are untouched. -/
theorem c5_handlers_refine_spec_merge (declared : List Stage) (crit : Obj)
    (docId : Value) :
    (getDocumentsListInject declared crit).1 = specMergeCriteria declared crit ∧
    (getADocumentInject declared docId).1
      = specMergeCriteria declared [("_id", docId)] ∧
    (updateADocumentInject declared docId).1
      = specMergeCriteria declared [("_id", docId)] ∧
    (createDocumentInject declared docId).1
      = specMergeCriteria declared [("_id", docId)] ∧
    (∀ i j, declared.findIdx? Stage.isMatch = some i → i < j →
      (specMergeCriteria declared crit).getD j (.otherStage "" .null)
        = declared.getD j (.otherStage "" .null)) := by
  refine ⟨?_, ?_, ?_, ?_, fun i j hi hij => ?_⟩
  · unfold getDocumentsListInject specMergeCriteria
    cases declared.findIdx? Stage.isMatch <;> rfl
  · unfold getADocumentInject specMergeCriteria
    cases declared.findIdx? Stage.isMatch <;> rfl
  · unfold updateADocumentInject specMergeCriteria
    cases declared.findIdx? Stage.isMatch <;> rfl
  · unfold createDocumentInject specMergeCriteria
    cases declared.findIdx? Stage.isMatch <;> rfl
  · unfold specMergeCriteria
    rw [hi]
    simp [List.getD_eq_getElem?_getD, List.getElem?_set_ne (Nat.ne_of_lt hij)]

/-- Witness for `c5_handlers_refine_spec_merge` at a concrete pipeline with
two `$match` stages: the merge goes into the first and the second is
untouched. -/
theorem c5_handlers_refine_spec_merge_witness :
    (getDocumentsListInject
        [Stage.matchStage [("a", Value.num 1)], Stage.matchStage [("b", Value.num 2)]]
        [("c", Value.num 3)]).1
      = specMergeCriteria
          [Stage.matchStage [("a", Value.num 1)], Stage.matchStage [("b", Value.num 2)]]
          [("c", Value.num 3)] ∧
    (specMergeCriteria
        [Stage.matchStage [("a", Value.num 1)], Stage.matchStage [("b", Value.num 2)]]
        [("c", Value.num 3)]).getD 1 (.otherStage "" .null)
      = ([Stage.matchStage [("a", Value.num 1)],
          Stage.matchStage [("b", Value.num 2)]]).getD 1 (.otherStage "" .null) :=
  ⟨(c5_handlers_refine_spec_merge
      [Stage.matchStage [("a", Value.num 1)], Stage.matchStage [("b", Value.num 2)]]
      [("c", Value.num 3)] (Value.oid "x")).1,
   (c5_handlers_refine_spec_merge
      [Stage.matchStage [("a", Value.num 1)], Stage.matchStage [("b", Value.num 2)]]
      [("c", Value.num 3)] (Value.oid "x")).2.2.2.2 0 1 (by decide) (by decide)⟩

end AutoCrud
